import Mathlib

/-!
Verification of the ELC Parking App against its specification.

The development shallowly embeds the two source files:
  * `parking_app_UPDATED.py` — the client: `ParkingLot`, `ParkingSystem`,
    the status classifier, the access policy and the refresh loop body;
  * `parking_server.py` — the authoritative store: per-space boolean
    bitmaps, the REST handlers (`get_lot`, `toggle_space`, `reset_lot`,
    `fill_lot`, `randomize_lot`) and the durable snapshot (`save_data`).

Python integers are modelled as `Int` (client counts) or `Nat` (server
capacities and list indices); the float comparison
`available / total >= 0.3` of `get_status` is modelled exactly over `ℚ`
(the literal 0.3 is the rational 3/10).  Network and disk effects are
modelled by explicit parameters: a fetch outcome, a `persist_ok` flag for
the durable write, and oracle functions for `random.randint` and
`random.sample` whose contracts appear as hypotheses of the theorems.
-/

namespace ELCParking

/-- `UserType` enum of `parking_app_UPDATED.py`: the requester classes. -/
inductive UserType where
  | STUDENT
  | STAFF
  | VISITOR
  deriving DecidableEq, Repr

/-- `ParkingStatus` enum of `parking_app_UPDATED.py`: the tri-state
availability indicator. -/
inductive ParkingStatus where
  | AVAILABLE
  | LIMITED
  | FULL
  deriving DecidableEq, Repr

/-- Client-side `ParkingLot` (`parking_app_UPDATED.py`, lines 51-59):
a lot with capacity, an occupancy count and a permit string
("Student", "Staff", "Both", "Open"). -/
structure ParkingLot where
  lot_id : String
  name : String
  total_spaces : Int
  occupied_spaces : Int
  permit_type : String
  drive_time : Int
  deriving DecidableEq, Repr

namespace ParkingLot

/-- `available_spaces` property (line 70-71): capacity minus occupancy. -/
def available_spaces (lot : ParkingLot) : Int :=
  lot.total_spaces - lot.occupied_spaces

/-- `get_status` (lines 86-93): the ratio `available / total` compared
against 0.3 (exactly 3/10 over `ℚ`) and 0. -/
def get_status (lot : ParkingLot) : ParkingStatus :=
  let availability_ratio : ℚ := (lot.available_spaces : ℚ) / (lot.total_spaces : ℚ)
  if availability_ratio ≥ 3 / 10 then ParkingStatus.AVAILABLE
  else if availability_ratio > 0 then ParkingStatus.LIMITED
  else ParkingStatus.FULL

/-- `update_occupancy` (lines 109-110): the occupancy write, clamped into
`[0, total_spaces]` by `max(0, min(occupied, total))`; no error path. -/
def update_occupancy (lot : ParkingLot) (occupied : Int) : ParkingLot :=
  { lot with occupied_spaces := max 0 (min occupied lot.total_spaces) }

/-- `can_user_park` (lines 112-121): the access policy, branching on the
permit string with a catch-all `False`. -/
def can_user_park (lot : ParkingLot) (user_type : UserType) : Bool :=
  if lot.permit_type = "Open" then true
  else if lot.permit_type = "Both" then
    user_type == UserType.STUDENT || user_type == UserType.STAFF
  else if lot.permit_type = "Student" then user_type == UserType.STUDENT
  else if lot.permit_type = "Staff" then user_type == UserType.STAFF
  else false

end ParkingLot

/-- Client `ParkingSystem` state (`parking_app_UPDATED.py`, lines 145-160):
the mirrored lot catalog and the `_server_connected` flag. -/
structure ParkingSystem where
  lots : List ParkingLot
  server_connected : Bool
  deriving Repr

/-- `_initialize_lots` (lines 162-168): the fixed client catalog, in
definition order 17, 18, 19, 14, all initially empty. -/
def initialize_lots : List ParkingLot :=
  [ParkingLot.mk "17" "Lot 17" 35 0 "Student" 2,
   ParkingLot.mk "18" "Lot 18" 45 0 "Staff" 1,
   ParkingLot.mk "19" "Lot 19" 60 0 "Both" 2,
   ParkingLot.mk "14" "Lot 14" 50 0 "Open" 3]

/-- `get_lot_by_id` (lines 173-177): first catalog entry with that id. -/
def get_lot_by_id (sys : ParkingSystem) (lot_id : String) : Option ParkingLot :=
  sys.lots.find? (fun lot => lot.lot_id == lot_id)

/-- `get_recommended_lots` (lines 216-217): the catalog filtered by
`can_user_park`, in catalog order. -/
def ParkingSystem.get_recommended_lots (sys : ParkingSystem) (user_type : UserType) :
    List ParkingLot :=
  sys.lots.filter (fun lot => lot.can_user_park user_type)

/-! ## Server model (`parking_server.py`) -/

/-- One entry of the server's `PARKING_LOTS` dict (lines 24-61): fixed
identity fields plus the per-space boolean bitmap (`False` = empty). -/
structure ServerLot where
  lot_id : String
  name : String
  total_spaces : Nat
  permit_type : String
  drive_time : Nat
  walk_time : Nat
  spaces : List Bool
  deriving DecidableEq, Repr

/-- The server store: the `PARKING_LOTS` dict as a list in its insertion
order, keys unique. -/
abbrev Store := List ServerLot

/-- The initial `PARKING_LOTS` catalog (lines 24-61): all spaces empty. -/
def PARKING_LOTS : Store :=
  [ServerLot.mk "17" "Lot 17" 35 "Student" 2 4 (List.replicate 35 false),
   ServerLot.mk "18" "Lot 18" 45 "Staff" 1 3 (List.replicate 45 false),
   ServerLot.mk "19" "Lot 19" 60 "Both" 2 5 (List.replicate 60 false),
   ServerLot.mk "14" "Lot 14" 50 "Open" 3 7 (List.replicate 50 false)]

/-- Dict lookup `PARKING_LOTS[lot_id]` / membership test
`lot_id not in PARKING_LOTS`. -/
def find_lot (st : Store) (lot_id : String) : Option ServerLot :=
  st.find? (fun l => l.lot_id == lot_id)

/-- Dict entry mutation: the handlers mutate the entry with the given key
in place; keys are unique, so mapping over the list is that mutation. -/
def update_lot (st : Store) (lot_id : String) (f : ServerLot → ServerLot) : Store :=
  st.map (fun l => if l.lot_id == lot_id then f l else l)

/-- `get_occupied_count` (lines 81-83): `sum(spaces)`, i.e. the number of
`True` entries of the bitmap. -/
def get_occupied_count (lot : ServerLot) : Nat :=
  lot.spaces.count true

/-- `get_available_count` (lines 86-90): capacity minus occupied. -/
def get_available_count (lot : ServerLot) : Int :=
  (lot.total_spaces : Int) - (get_occupied_count lot : Int)

/-- One element of the aggregated JSON the server returns from
`/api/lots` (lines 100-112); the client reads `lot_id` and
`occupied_spaces` from it.  The `last_update` timestamp (wall-clock) is
outside the model. -/
structure Snapshot where
  lot_id : String
  name : String
  total_spaces : Int
  occupied_spaces : Int
  available_spaces : Int
  permit_type : String
  drive_time : Int
  walk_time : Int
  deriving DecidableEq, Repr

/-- `get_all_lots` handler (lines 97-113): aggregated snapshots for every
catalog area, in store order; always succeeds. -/
def get_all_lots (st : Store) : List Snapshot :=
  st.map (fun lot =>
    Snapshot.mk lot.lot_id lot.name (lot.total_spaces : Int)
      (get_occupied_count lot : Int) (get_available_count lot)
      lot.permit_type (lot.drive_time : Int) (lot.walk_time : Int))

/-- Body of a successful `GET /api/lot/{id}` (lines 116-134): the
aggregated snapshot plus the full per-space bitmap. -/
structure LotDetail where
  snapshot : Snapshot
  spaces : List Bool
  deriving DecidableEq, Repr

/-- `get_lot` handler (lines 116-134): `none` models the 404
`{"error": "Lot not found"}` response for an unknown id; a known id
always succeeds. -/
def get_lot (st : Store) (lot_id : String) : Option LotDetail :=
  match find_lot st lot_id with
  | none => none
  | some lot =>
      some (LotDetail.mk
        (Snapshot.mk lot.lot_id lot.name (lot.total_spaces : Int)
          (get_occupied_count lot : Int) (get_available_count lot)
          lot.permit_type (lot.drive_time : Int) (lot.walk_time : Int))
        lot.spaces)

/-- Server-side mutable world: the in-memory `PARKING_LOTS` store and the
durable `parking_data.json` file contents (`none` = not written yet). -/
structure ServerEnv where
  store : Store
  disk : Option Store
  deriving Repr

/-- Outcome of a mutating handler.  `notFound` is the 404 error body,
`badRequest` the 400 one, `ok` the JSON success body.  `exn` models
`save_data` raising: the handler has no try/except, so the exception
propagates out of the handler (the framework turns it into an HTTP 500);
there is no success body in that case. -/
inductive ApiResp (α : Type) where
  | notFound
  | badRequest
  | exn
  | ok (body : α)
  deriving DecidableEq, Repr

/-- Success body of `toggle_space` (lines 151-158). -/
structure ToggleBody where
  lot_id : String
  space_index : Int
  occupied : Bool
  occupied_count : Nat
  available_count : Int
  deriving DecidableEq, Repr

/-- The one-bit mutation of `toggle_space` (line 148):
`lot["spaces"][space_index] = not lot["spaces"][space_index]`. -/
def flip_space (i : Nat) (l : ServerLot) : ServerLot :=
  { l with spaces := l.spaces.set i (!(l.spaces.getD i false)) }

/-- `toggle_space` handler (lines 137-158): 404 for an unknown id, 400 for
an index outside `[0, total_spaces)`, otherwise flip the bit, call
`save_data` (write the whole store to disk when `persist_ok`, raise
otherwise — the flip is already applied either way) and return the body
computed from the mutated entry. -/
def toggle_space (env : ServerEnv) (lot_id : String) (space_index : Int)
    (persist_ok : Bool) : ApiResp ToggleBody × ServerEnv :=
  match find_lot env.store lot_id with
  | none => (ApiResp.notFound, env)
  | some lot =>
      if space_index < 0 ∨ (lot.total_spaces : Int) ≤ space_index then
        (ApiResp.badRequest, env)
      else
        let i := space_index.toNat
        let newLot : ServerLot := flip_space i lot
        let st := update_lot env.store lot_id (flip_space i)
        if persist_ok then
          (ApiResp.ok (ToggleBody.mk lot_id space_index (newLot.spaces.getD i false)
              (get_occupied_count newLot) (get_available_count newLot)),
           ServerEnv.mk st (some st))
        else
          (ApiResp.exn, ServerEnv.mk st env.disk)

/-- `reset_lot` handler (lines 161-175): all spaces to `False`, then
`save_data`; the success body carries only a message. -/
def reset_lot (env : ServerEnv) (lot_id : String) (persist_ok : Bool) :
    ApiResp Unit × ServerEnv :=
  match find_lot env.store lot_id with
  | none => (ApiResp.notFound, env)
  | some _ =>
      let st := update_lot env.store lot_id
        (fun l => { l with spaces := List.replicate l.total_spaces false })
      if persist_ok then (ApiResp.ok (), ServerEnv.mk st (some st))
      else (ApiResp.exn, ServerEnv.mk st env.disk)

/-- `fill_lot` handler (lines 178-192): all spaces to `True`, then
`save_data`. -/
def fill_lot (env : ServerEnv) (lot_id : String) (persist_ok : Bool) :
    ApiResp Unit × ServerEnv :=
  match find_lot env.store lot_id with
  | none => (ApiResp.notFound, env)
  | some _ =>
      let st := update_lot env.store lot_id
        (fun l => { l with spaces := List.replicate l.total_spaces true })
      if persist_ok then (ApiResp.ok (), ServerEnv.mk st (some st))
      else (ApiResp.exn, ServerEnv.mk st env.disk)

/-- The per-area count `randomize_lot` draws (lines 206-213): a
`random.randint` call on the area's fixed realistic range, modelled by the
oracle `rng lo hi`. -/
def realistic_count (lot_id : String) (rng : Int → Int → Int) : Int :=
  if lot_id = "17" then rng 28 35
  else if lot_id = "18" then rng 40 45
  else if lot_id = "19" then rng 45 60
  else rng 15 40

/-- The loop `for idx in occupied_indices: spaces[idx] = True`
(lines 218-219), starting from a given bitmap. -/
def set_indices (spaces : List Bool) (idxs : List Nat) : List Bool :=
  idxs.foldl (fun s i => s.set i true) spaces

/-- Success body of `randomize_lot` (lines 223-228): note it reports the
drawn `occupied_count`, not a recount of the bitmap. -/
structure RandomBody where
  lot_id : String
  occupied_count : Int
  available_count : Int
  deriving DecidableEq, Repr

/-- `randomize_lot` handler (lines 195-228): 404 for an unknown id;
otherwise draw a count from the area's range, clear the bitmap, set the
indices `random.sample(range(total), count)` returns (modelled by the
oracle `sample total count`, whose contract — distinct indices below
`total`, exactly `count` of them — is a hypothesis where needed), then
`save_data` and report the drawn counts. -/
def randomize_lot (env : ServerEnv) (lot_id : String) (rng : Int → Int → Int)
    (sample : Nat → Nat → List Nat) (persist_ok : Bool) :
    ApiResp RandomBody × ServerEnv :=
  match find_lot env.store lot_id with
  | none => (ApiResp.notFound, env)
  | some lot =>
      let occupied_count : Int := realistic_count lot_id rng
      let idxs := sample lot.total_spaces occupied_count.toNat
      let st := update_lot env.store lot_id
        (fun l => { l with spaces := set_indices (List.replicate l.total_spaces false) idxs })
      if persist_ok then
        (ApiResp.ok (RandomBody.mk lot_id occupied_count
            ((lot.total_spaces : Int) - occupied_count)),
         ServerEnv.mk st (some st))
      else (ApiResp.exn, ServerEnv.mk st env.disk)

/-! ## Client synchronizer (`refresh_data`, lines 188-211) -/

/-- What `requests.get(f"{API_BASE}/lots", timeout=2)` produced.  `exn`
covers every exception the bare `except:` catches — timeout, connection
refused, malformed JSON body, missing keys; `response status lots_data`
is an HTTP response that parsed. -/
inductive FetchOutcome where
  | exn
  | response (status : Int) (lots_data : List Snapshot)

/-- The body of the 200-branch loop (lines 193-196): `get_lot_by_id`
returns the first (unique) catalog entry with the id, and
`lot.update_occupancy(...)` mutates it in place; an id not in the catalog
updates nothing. -/
def update_first : List ParkingLot → String → Int → List ParkingLot
  | [], _, _ => []
  | lot :: rest, lot_id, occupied =>
      if lot.lot_id = lot_id then lot.update_occupancy occupied :: rest
      else lot :: update_first rest lot_id occupied

/-- The fallback loop body (lines 200-209): a synthetic occupancy drawn
from the area's fixed range via the `random.randint` oracle `rng`. -/
def simulate_lot (rng : Int → Int → Int) (lot : ParkingLot) : ParkingLot :=
  if lot.lot_id = "17" then lot.update_occupancy (rng 28 35)
  else if lot.lot_id = "18" then lot.update_occupancy (rng 40 45)
  else if lot.lot_id = "19" then lot.update_occupancy (rng 45 60)
  else lot.update_occupancy (rng 15 40)

/-- `refresh_data` (lines 188-211).  On an exception: simulate every lot,
set `_server_connected = False`, return `False`.  On a 200 response:
apply each reported `occupied_spaces` to the catalog, set
`_server_connected = True`, return `True`.  On a non-200 response the
function falls off the `try` block: it returns Python's `None` (modelled
`none`) and touches neither the lots nor the flag. -/
def refresh_data (sys : ParkingSystem) (outcome : FetchOutcome)
    (rng : Int → Int → Int) : Option Bool × ParkingSystem :=
  match outcome with
  | FetchOutcome.exn =>
      (some false,
        ParkingSystem.mk (sys.lots.map (simulate_lot rng)) false)
  | FetchOutcome.response status lots_data =>
      if status = 200 then
        (some true,
          ParkingSystem.mk
            (lots_data.foldl
              (fun ls ld => update_first ls ld.lot_id ld.occupied_spaces) sys.lots)
            true)
      else (none, sys)

/-- The client catalog of `_initialize_lots` with the occupancy counters
at arbitrary values: the shape every reachable client state has (all
operations only rewrite `occupied_spaces`). -/
def catalogLots (o17 o18 o19 o14 : Int) : List ParkingLot :=
  [ParkingLot.mk "17" "Lot 17" 35 o17 "Student" 2,
   ParkingLot.mk "18" "Lot 18" 45 o18 "Staff" 1,
   ParkingLot.mk "19" "Lot 19" 60 o19 "Both" 2,
   ParkingLot.mk "14" "Lot 14" 50 o14 "Open" 3]

/-- The server catalog of `PARKING_LOTS` with arbitrary bitmaps: the
shape every reachable server store has. -/
def serverCatalog (s17 s18 s19 s14 : List Bool) : Store :=
  [ServerLot.mk "17" "Lot 17" 35 "Student" 2 4 s17,
   ServerLot.mk "18" "Lot 18" 45 "Staff" 1 3 s18,
   ServerLot.mk "19" "Lot 19" 60 "Both" 2 5 s19,
   ServerLot.mk "14" "Lot 14" 50 "Open" 3 7 s14]

/-- Frame relation between an old and a new store: same number of areas
and, position by position, identical identity fields — everything of an
area except its bitmap.  "No area is created or destroyed, only occupancy
mutates." -/
def frame_store (old new : Store) : Prop :=
  new.length = old.length
  ∧ ∀ (k : Nat) (hk : k < old.length) (hk2 : k < new.length),
      (new.get ⟨k, hk2⟩).lot_id = (old.get ⟨k, hk⟩).lot_id
      ∧ (new.get ⟨k, hk2⟩).name = (old.get ⟨k, hk⟩).name
      ∧ (new.get ⟨k, hk2⟩).total_spaces = (old.get ⟨k, hk⟩).total_spaces
      ∧ (new.get ⟨k, hk2⟩).permit_type = (old.get ⟨k, hk⟩).permit_type
      ∧ (new.get ⟨k, hk2⟩).drive_time = (old.get ⟨k, hk⟩).drive_time
      ∧ (new.get ⟨k, hk2⟩).walk_time = (old.get ⟨k, hk⟩).walk_time

/-! ## Theorems -/

/-! ### Helper lemmas about lists and stores -/

/-- Writing a different index leaves a position's value unchanged. -/
theorem getD_set_ne (s : List Bool) (i j : Nat) (b : Bool) (h : i ≠ j) :
    (s.set i b).getD j false = s.getD j false := by
  induction s generalizing i j with
  | nil => simp [List.set]
  | cons hd tl ih =>
      cases i with
      | zero =>
          cases j with
          | zero => exact absurd rfl h
          | succ j => simp [List.set, List.getD]
      | succ i =>
          cases j with
          | zero => simp [List.set, List.getD]
          | succ j =>
              simp only [List.set, List.getD_cons_succ]
              exact ih i j (fun he => h (congrArg Nat.succ he))

/-- Flipping the same position twice restores the list, at every index
(out-of-range writes are no-ops on both passes). -/
theorem double_set_not (s : List Bool) (i : Nat) :
    (s.set i (!(s.getD i false))).set i
        (!((s.set i (!(s.getD i false))).getD i false)) = s := by
  induction s generalizing i with
  | nil => simp [List.set]
  | cons hd tl ih =>
      cases i with
      | zero => simp [List.set, List.getD]
      | succ i => simpa [List.set, List.getD] using ih i

/-- Every position of the all-`false` list reads `false`. -/
theorem getD_replicate_false (n i : Nat) :
    (List.replicate n false).getD i false = false := by
  induction n generalizing i with
  | zero => simp [List.getD]
  | succ n ih =>
      cases i with
      | zero => simp [List.replicate]
      | succ i => simp [List.replicate, List.getD_cons_succ, ih i]

/-- The all-`false` list has no occupied space. -/
theorem count_replicate_false (n : Nat) :
    (List.replicate n false).count true = 0 := by
  induction n with
  | zero => rfl
  | succ n ih => simp [List.replicate, List.count_cons, ih]

/-- Setting a `false` position to `true` raises the `true`-count by one. -/
theorem count_set_true (s : List Bool) (i : Nat) (hi : i < s.length)
    (hs : s.getD i false = false) :
    (s.set i true).count true = s.count true + 1 := by
  induction s generalizing i with
  | nil => simp at hi
  | cons hd tl ih =>
      cases i with
      | zero =>
          have hhd : hd = false := by simpa [List.getD] using hs
          subst hhd
          simp [List.set, List.count_cons]
      | succ i =>
          have hi2 : i < tl.length := by simpa using hi
          have hs2 : tl.getD i false = false := by simpa [List.getD] using hs
          simp [List.set, List.count_cons, ih i hi2 hs2]
          cases hd <;> simp

/-- `set_indices` preserves the bitmap's length. -/
theorem length_set_indices (idxs : List Nat) (s : List Bool) :
    (set_indices s idxs).length = s.length := by
  induction idxs generalizing s with
  | nil => rfl
  | cons i rest ih => simpa [set_indices] using ih (s.set i true)

/-- Marking distinct in-range indices that all read `false` adds exactly
one occupied space per index. -/
theorem count_set_indices (idxs : List Nat) (s : List Bool)
    (hnd : idxs.Nodup) (hlt : ∀ i ∈ idxs, i < s.length)
    (hfalse : ∀ i ∈ idxs, s.getD i false = false) :
    (set_indices s idxs).count true = s.count true + idxs.length := by
  induction idxs generalizing s with
  | nil => simp [set_indices]
  | cons i rest ih =>
      have hni : i ∉ rest := (List.nodup_cons.mp hnd).1
      have hnd2 : rest.Nodup := (List.nodup_cons.mp hnd).2
      have hstep : set_indices s (i :: rest) = set_indices (s.set i true) rest := rfl
      rw [hstep, ih (s.set i true) hnd2
        (fun j hj => by
          have := hlt j (List.mem_cons_of_mem i hj)
          simpa using this)
        (fun j hj => by
          have hji : i ≠ j := fun he => hni (he ▸ hj)
          rw [getD_set_ne s i j true hji]
          exact hfalse j (List.mem_cons_of_mem i hj)),
        count_set_true s i (hlt i (List.mem_cons_self i rest))
          (hfalse i (List.mem_cons_self i rest))]
      simp [List.length_cons]
      omega

/-- Looking up the updated key finds the updated entry, for any update
that preserves the key field. -/
theorem find_update_lot (st : Store) (lot_id : String) (f : ServerLot → ServerLot)
    (hf : ∀ l, (f l).lot_id = l.lot_id) :
    find_lot (update_lot st lot_id f) lot_id = (find_lot st lot_id).map f := by
  induction st with
  | nil => rfl
  | cons l st ih =>
      by_cases h : l.lot_id == lot_id
      · simp [find_lot, update_lot, List.find?, h, hf l]
      · have h2 : ((if l.lot_id == lot_id then f l else l).lot_id == lot_id) = false := by
          simp only [h, if_neg]
          simpa using h
        simp only [find_lot, update_lot, List.map, List.find?] at ih ⊢
        rw [if_neg (by simpa using h)]
        simp only [h2, Bool.false_eq_true, if_neg, h]
        simpa [h] using ih

/-- Two updates of the same key compose pointwise, for a first update
that preserves the key field. -/
theorem update_lot_comp (st : Store) (lot_id : String)
    (f g : ServerLot → ServerLot) (hf : ∀ l, (f l).lot_id = l.lot_id) :
    update_lot (update_lot st lot_id f) lot_id g
      = update_lot st lot_id (fun l => g (f l)) := by
  simp only [update_lot, List.map_map]
  apply List.map_congr_left
  intro l _
  by_cases h : l.lot_id == lot_id
  · simp [Function.comp, h, hf l]
  · simp [Function.comp, h]

/-- An update that fixes every entry is the identity on the store. -/
theorem update_lot_eq_self (st : Store) (lot_id : String)
    (f : ServerLot → ServerLot) (hf : ∀ l, f l = l) :
    update_lot st lot_id f = st := by
  simp only [update_lot]
  have h : ∀ l ∈ st, (if l.lot_id == lot_id then f l else l) = l := by
    intro l _
    by_cases h : l.lot_id == lot_id <;> simp [h, hf l]
  rw [List.map_congr_left h]
  simp

/-- `flip_space` at one index is an involution on a lot. -/
theorem flip_space_involutive (i : Nat) (l : ServerLot) :
    flip_space i (flip_space i l) = l := by
  simp only [flip_space]
  cases l
  simp only [ServerLot.mk.injEq, true_and]
  exact double_set_not _ i

/-- An update touching only the bitmap satisfies the frame relation. -/
theorem frame_store_update (st : Store) (lot_id : String)
    (f : ServerLot → ServerLot)
    (hf : ∀ l, (f l).lot_id = l.lot_id ∧ (f l).name = l.name
      ∧ (f l).total_spaces = l.total_spaces ∧ (f l).permit_type = l.permit_type
      ∧ (f l).drive_time = l.drive_time ∧ (f l).walk_time = l.walk_time) :
    frame_store st (update_lot st lot_id f) := by
  refine ⟨by simp [update_lot], fun k hk hk2 => ?_⟩
  have hg : (update_lot st lot_id f).get ⟨k, hk2⟩
      = if ((st.get ⟨k, hk⟩).lot_id == lot_id) = true then f (st.get ⟨k, hk⟩)
        else st.get ⟨k, hk⟩ := by
    simp [update_lot, List.get_eq_getElem, List.getElem_map]
  rw [hg]
  by_cases h : ((st.get ⟨k, hk⟩).lot_id == lot_id) = true
  · rw [if_pos h]
    exact hf (st.get ⟨k, hk⟩)
  · rw [if_neg h]
    exact ⟨rfl, rfl, rfl, rfl, rfl, rfl⟩

/-- The frame relation is reflexive. -/
theorem frame_store_refl (st : Store) : frame_store st st :=
  ⟨rfl, fun _ _ _ => ⟨rfl, rfl, rfl, rfl, rfl, rfl⟩⟩

/-- C1: for every lot with positive capacity and every integer `n`,
`update_occupancy` clamps `n` into `[0, capacity]` (no error path): the
new occupancy lies in `[0, C]`, the capacity is untouched,
`available_spaces = C - occupied` lies in `[0, C]`; in particular
`n = -10` yields `available_spaces = C` and `n = C + 50` yields
`available_spaces = 0`. -/
theorem C1_update_occupancy_clamps (lot : ParkingLot) (hC : 0 < lot.total_spaces)
    (n : Int) :
    (0 ≤ (lot.update_occupancy n).occupied_spaces
      ∧ (lot.update_occupancy n).occupied_spaces ≤ lot.total_spaces
      ∧ (lot.update_occupancy n).total_spaces = lot.total_spaces
      ∧ (lot.update_occupancy n).available_spaces
          = lot.total_spaces - (lot.update_occupancy n).occupied_spaces
      ∧ 0 ≤ (lot.update_occupancy n).available_spaces
      ∧ (lot.update_occupancy n).available_spaces ≤ lot.total_spaces)
    ∧ (lot.update_occupancy (-10)).available_spaces = lot.total_spaces
    ∧ (lot.update_occupancy (lot.total_spaces + 50)).available_spaces = 0 := by
  simp [ParkingLot.update_occupancy, ParkingLot.available_spaces]
  omega

/-- C1 witness: the clamping theorem applied to catalog lot 17
(capacity 35). -/
theorem C1_witness :
    0 ≤ ((ParkingLot.mk "17" "Lot 17" 35 0 "Student" 2).update_occupancy (-10)).occupied_spaces
    ∧ ((ParkingLot.mk "17" "Lot 17" 35 0 "Student" 2).update_occupancy (-10)).available_spaces
        = 35 :=
  ⟨(C1_update_occupancy_clamps (ParkingLot.mk "17" "Lot 17" 35 0 "Student" 2)
      (by norm_num) (-10)).1.1,
   (C1_update_occupancy_clamps (ParkingLot.mk "17" "Lot 17" 35 0 "Student" 2)
      (by norm_num) (-10)).2.1⟩

/-- C2: for every lot with capacity `C > 0` and occupancy in `[0, C]`,
`get_status` is the pure classifier of the ratio
`available_spaces / total_spaces`: `AVAILABLE` iff the ratio is at least
3/10 (the exact value of the literal 0.3), `LIMITED` iff it is strictly
between 0 and 3/10, `FULL` iff it is 0; it depends only on the pair
(occupied, capacity); and concretely `C = 35` gives `AVAILABLE` at 10
occupied, `LIMITED` at 32 and `FULL` at 35. -/
theorem C2_status_classifier (lot : ParkingLot) (hC : 0 < lot.total_spaces)
    (h0 : 0 ≤ lot.occupied_spaces) (hn : lot.occupied_spaces ≤ lot.total_spaces) :
    ((lot.get_status = ParkingStatus.AVAILABLE
        ↔ (3 : ℚ) / 10 ≤ (lot.available_spaces : ℚ) / (lot.total_spaces : ℚ))
      ∧ (lot.get_status = ParkingStatus.LIMITED
        ↔ (0 < (lot.available_spaces : ℚ) / (lot.total_spaces : ℚ)
            ∧ (lot.available_spaces : ℚ) / (lot.total_spaces : ℚ) < 3 / 10))
      ∧ (lot.get_status = ParkingStatus.FULL
        ↔ (lot.available_spaces : ℚ) / (lot.total_spaces : ℚ) = 0))
    ∧ (∀ lot₂ : ParkingLot, lot₂.occupied_spaces = lot.occupied_spaces →
        lot₂.total_spaces = lot.total_spaces → lot₂.get_status = lot.get_status)
    ∧ (ParkingLot.mk "17" "Lot 17" 35 10 "Student" 2).get_status
        = ParkingStatus.AVAILABLE
    ∧ (ParkingLot.mk "17" "Lot 17" 35 32 "Student" 2).get_status
        = ParkingStatus.LIMITED
    ∧ (ParkingLot.mk "17" "Lot 17" 35 35 "Student" 2).get_status
        = ParkingStatus.FULL := by
  have hr0 : 0 ≤ (lot.available_spaces : ℚ) / (lot.total_spaces : ℚ) := by
    apply div_nonneg
    · simp only [ParkingLot.available_spaces]
      push_cast
      have h : (lot.occupied_spaces : ℚ) ≤ (lot.total_spaces : ℚ) := by exact_mod_cast hn
      linarith
    · have h : (0 : ℚ) < (lot.total_spaces : ℚ) := by exact_mod_cast hC
      linarith
  refine ⟨?_, fun lot₂ hocc htot => ?_, ?_, ?_, ?_⟩
  · by_cases h1 : (3 : ℚ) / 10 ≤ (lot.available_spaces : ℚ) / (lot.total_spaces : ℚ)
    · have hs : lot.get_status = ParkingStatus.AVAILABLE := by
        simp [ParkingLot.get_status, h1]
      refine ⟨by rw [hs]; exact ⟨fun _ => h1, fun _ => rfl⟩, ?_, ?_⟩
      · rw [hs]
        constructor
        · intro h
          exact absurd h (by decide)
        · rintro ⟨h2, h3⟩
          exact absurd h3 (not_lt.mpr h1)
      · rw [hs]
        constructor
        · intro h
          exact absurd h (by decide)
        · intro h
          rw [h] at h1
          exact absurd h1 (by norm_num)
    · by_cases h2 : (0 : ℚ) < (lot.available_spaces : ℚ) / (lot.total_spaces : ℚ)
      · have hs : lot.get_status = ParkingStatus.LIMITED := by
          simp [ParkingLot.get_status, h1, h2]
        refine ⟨?_, ?_, ?_⟩
        · rw [hs]
          constructor
          · intro h
            exact absurd h (by decide)
          · intro h
            exact absurd h h1
        · rw [hs]
          exact ⟨fun _ => ⟨h2, lt_of_not_le h1⟩, fun _ => rfl⟩
        · rw [hs]
          constructor
          · intro h
            exact absurd h (by decide)
          · intro h
            exact absurd h (ne_of_gt h2)
      · have hr : (lot.available_spaces : ℚ) / (lot.total_spaces : ℚ) = 0 :=
          le_antisymm (not_lt.mp h2) hr0
        have hs : lot.get_status = ParkingStatus.FULL := by
          simp [ParkingLot.get_status, h1, h2]
        refine ⟨?_, ?_, ?_⟩
        · rw [hs]
          constructor
          · intro h
            exact absurd h (by decide)
          · intro h
            exact absurd h h1
        · rw [hs]
          constructor
          · intro h
            exact absurd h (by decide)
          · rintro ⟨h3, _⟩
            exact absurd h3 h2
        · rw [hs]
          exact ⟨fun _ => hr, fun _ => rfl⟩
  · simp [ParkingLot.get_status, ParkingLot.available_spaces, hocc, htot]
  · simp only [ParkingLot.get_status, ParkingLot.available_spaces]
    norm_num
  · simp only [ParkingLot.get_status, ParkingLot.available_spaces]
    norm_num
  · simp only [ParkingLot.get_status, ParkingLot.available_spaces]
    norm_num

/-- C2 witness: the classifier characterisation applied to catalog lot 17
with 10 of 35 spaces occupied. -/
theorem C2_witness :
    (ParkingLot.mk "17" "Lot 17" 35 10 "Student" 2).get_status = ParkingStatus.AVAILABLE
      ↔ (3 : ℚ) / 10 ≤
          ((ParkingLot.mk "17" "Lot 17" 35 10 "Student" 2).available_spaces : ℚ)
            / ((ParkingLot.mk "17" "Lot 17" 35 10 "Student" 2).total_spaces : ℚ) :=
  (C2_status_classifier (ParkingLot.mk "17" "Lot 17" 35 10 "Student" 2)
    (by decide) (by decide) (by decide)).1.1

/-- C3: the `can_user_park` access table, for every value of the lot's
other fields: "Open" admits Student, Staff and Visitor; "Both" (the
spec's StudentOrStaff) admits Student and Staff but not Visitor;
"Student" admits only Student; "Staff" admits only Staff; and for every
permit string whatsoever a Visitor is admitted iff the permit is
"Open". -/
theorem C3_access_policy_table (id nm : String) (total occ drive : Int) :
    ((ParkingLot.mk id nm total occ "Open" drive).can_user_park UserType.STUDENT = true
      ∧ (ParkingLot.mk id nm total occ "Open" drive).can_user_park UserType.STAFF = true
      ∧ (ParkingLot.mk id nm total occ "Open" drive).can_user_park UserType.VISITOR = true
      ∧ (ParkingLot.mk id nm total occ "Both" drive).can_user_park UserType.STUDENT = true
      ∧ (ParkingLot.mk id nm total occ "Both" drive).can_user_park UserType.STAFF = true
      ∧ (ParkingLot.mk id nm total occ "Both" drive).can_user_park UserType.VISITOR = false
      ∧ (ParkingLot.mk id nm total occ "Student" drive).can_user_park UserType.STUDENT = true
      ∧ (ParkingLot.mk id nm total occ "Student" drive).can_user_park UserType.STAFF = false
      ∧ (ParkingLot.mk id nm total occ "Student" drive).can_user_park UserType.VISITOR = false
      ∧ (ParkingLot.mk id nm total occ "Staff" drive).can_user_park UserType.STUDENT = false
      ∧ (ParkingLot.mk id nm total occ "Staff" drive).can_user_park UserType.STAFF = true
      ∧ (ParkingLot.mk id nm total occ "Staff" drive).can_user_park UserType.VISITOR = false)
    ∧ ∀ p : String,
        ((ParkingLot.mk id nm total occ p drive).can_user_park UserType.VISITOR = true
          ↔ p = "Open") := by
  constructor
  · simp [ParkingLot.can_user_park]
  · intro p
    by_cases h1 : p = "Open" <;>
      by_cases h2 : p = "Both" <;>
        by_cases h3 : p = "Student" <;>
          by_cases h4 : p = "Staff" <;>
            simp [ParkingLot.can_user_park, h1, h2, h3, h4]

/-- C5: for every requester class, `get_recommended_lots` is exactly the
catalog filtered by `can_user_park`: an ordered subsequence of the
system's lots whose members are precisely the permitted lots; on the
fixed client catalog (definition order 17, 18, 19, 14) the rankings are
17, 19, 14 for a Student, 18, 19, 14 for Staff and 14 alone for a
Visitor. -/
theorem C5_recommended_is_ordered_filter (sys : ParkingSystem) (u : UserType) :
    (sys.get_recommended_lots u).Sublist sys.lots
    ∧ (∀ lot : ParkingLot,
        lot ∈ sys.get_recommended_lots u
          ↔ lot ∈ sys.lots ∧ lot.can_user_park u = true)
    ∧ ((ParkingSystem.mk initialize_lots false).get_recommended_lots
          UserType.STUDENT).map ParkingLot.lot_id = ["17", "19", "14"]
    ∧ ((ParkingSystem.mk initialize_lots false).get_recommended_lots
          UserType.STAFF).map ParkingLot.lot_id = ["18", "19", "14"]
    ∧ ((ParkingSystem.mk initialize_lots false).get_recommended_lots
          UserType.VISITOR).map ParkingLot.lot_id = ["14"] := by
  refine ⟨List.filter_sublist _, fun lot => ?_, ?_, ?_, ?_⟩
  · simp [ParkingSystem.get_recommended_lots, List.mem_filter]
  · rfl
  · rfl
  · rfl

/-- C4: the synchronizer's two transitions, from any reachable client
state (any occupancies, either connection flag).  A fetch failure (any
exception of the bare `except:` — timeout, refused, malformed response)
makes `refresh_data` return `False`, sets the connected flag to `False`
and replaces every area's occupancy by a synthetic count inside that
area's fixed range (17: 28-35, 18: 40-45, 19: 45-60, 14: 15-40); the
next successful fetch of the server's `/api/lots` payload returns
`True`, sets the flag back to `True` and makes every catalog area's
occupancy exactly the `occupied_spaces` the server reported. -/
theorem C4_sync_failure_and_recovery (rng : Int → Int → Int)
    (hrng : ∀ lo hi : Int, lo ≤ hi → lo ≤ rng lo hi ∧ rng lo hi ≤ hi)
    (o17 o18 o19 o14 : Int) (c : Bool) (s17 s18 s19 s14 : List Bool)
    (hl17 : s17.length = 35) (hl18 : s18.length = 45)
    (hl19 : s19.length = 60) (hl14 : s14.length = 50) :
    (refresh_data (ParkingSystem.mk (catalogLots o17 o18 o19 o14) c)
        FetchOutcome.exn rng).1 = some false
    ∧ (refresh_data (ParkingSystem.mk (catalogLots o17 o18 o19 o14) c)
        FetchOutcome.exn rng).2.server_connected = false
    ∧ (∃ n17 n18 n19 n14 : Int,
        (refresh_data (ParkingSystem.mk (catalogLots o17 o18 o19 o14) c)
            FetchOutcome.exn rng).2.lots = catalogLots n17 n18 n19 n14
        ∧ 28 ≤ n17 ∧ n17 ≤ 35 ∧ 40 ≤ n18 ∧ n18 ≤ 45
        ∧ 45 ≤ n19 ∧ n19 ≤ 60 ∧ 15 ≤ n14 ∧ n14 ≤ 40)
    ∧ (refresh_data (ParkingSystem.mk (catalogLots o17 o18 o19 o14) c)
        (FetchOutcome.response 200 (get_all_lots (serverCatalog s17 s18 s19 s14)))
        rng).1 = some true
    ∧ (refresh_data (ParkingSystem.mk (catalogLots o17 o18 o19 o14) c)
        (FetchOutcome.response 200 (get_all_lots (serverCatalog s17 s18 s19 s14)))
        rng).2.server_connected = true
    ∧ (refresh_data (ParkingSystem.mk (catalogLots o17 o18 o19 o14) c)
        (FetchOutcome.response 200 (get_all_lots (serverCatalog s17 s18 s19 s14)))
        rng).2.lots
      = catalogLots ((s17.count true : Nat) : Int) ((s18.count true : Nat) : Int)
          ((s19.count true : Nat) : Int) ((s14.count true : Nat) : Int) := by
  obtain ⟨ha1, ha2⟩ := hrng 28 35 (by norm_num)
  obtain ⟨hb1, hb2⟩ := hrng 40 45 (by norm_num)
  obtain ⟨hc1, hc2⟩ := hrng 45 60 (by norm_num)
  obtain ⟨hd1, hd2⟩ := hrng 15 40 (by norm_num)
  have hc17 : s17.count true ≤ 35 := hl17 ▸ List.count_le_length true s17
  have hc18 : s18.count true ≤ 45 := hl18 ▸ List.count_le_length true s18
  have hc19 : s19.count true ≤ 60 := hl19 ▸ List.count_le_length true s19
  have hc14 : s14.count true ≤ 50 := hl14 ▸ List.count_le_length true s14
  refine ⟨rfl, rfl, ?_, rfl, rfl, ?_⟩
  · refine ⟨max 0 (min (rng 28 35) 35), max 0 (min (rng 40 45) 45),
      max 0 (min (rng 45 60) 60), max 0 (min (rng 15 40) 50), ?_,
      by omega, by omega, by omega, by omega, by omega, by omega, by omega, by omega⟩
    simp [refresh_data, catalogLots, simulate_lot, ParkingLot.update_occupancy]
  · have e17 : max (0 : Int) (min ((s17.count true : Nat) : Int) 35)
        = ((s17.count true : Nat) : Int) := by omega
    have e18 : max (0 : Int) (min ((s18.count true : Nat) : Int) 45)
        = ((s18.count true : Nat) : Int) := by omega
    have e19 : max (0 : Int) (min ((s19.count true : Nat) : Int) 60)
        = ((s19.count true : Nat) : Int) := by omega
    have e14 : max (0 : Int) (min ((s14.count true : Nat) : Int) 50)
        = ((s14.count true : Nat) : Int) := by omega
    simp [refresh_data, get_all_lots, serverCatalog, catalogLots, update_first,
      ParkingLot.update_occupancy, get_occupied_count, get_available_count,
      e17, e18, e19, e14]
    exact ⟨hc17, hc18, hc19, hc14⟩

/-- C4 witness: the transition theorem at the `randint` oracle that
returns the lower bound, starting from a connected client with all
counters 0, recovering against the all-empty server store. -/
theorem C4_witness :
    (refresh_data (ParkingSystem.mk (catalogLots 0 0 0 0) true)
        FetchOutcome.exn (fun lo _ => lo)).1 = some false
    ∧ (refresh_data (ParkingSystem.mk (catalogLots 0 0 0 0) true)
        FetchOutcome.exn (fun lo _ => lo)).2.server_connected = false
    ∧ (∃ n17 n18 n19 n14 : Int,
        (refresh_data (ParkingSystem.mk (catalogLots 0 0 0 0) true)
            FetchOutcome.exn (fun lo _ => lo)).2.lots = catalogLots n17 n18 n19 n14
        ∧ 28 ≤ n17 ∧ n17 ≤ 35 ∧ 40 ≤ n18 ∧ n18 ≤ 45
        ∧ 45 ≤ n19 ∧ n19 ≤ 60 ∧ 15 ≤ n14 ∧ n14 ≤ 40)
    ∧ (refresh_data (ParkingSystem.mk (catalogLots 0 0 0 0) true)
        (FetchOutcome.response 200 (get_all_lots (serverCatalog
          (List.replicate 35 false) (List.replicate 45 false)
          (List.replicate 60 false) (List.replicate 50 false))))
        (fun lo _ => lo)).1 = some true
    ∧ (refresh_data (ParkingSystem.mk (catalogLots 0 0 0 0) true)
        (FetchOutcome.response 200 (get_all_lots (serverCatalog
          (List.replicate 35 false) (List.replicate 45 false)
          (List.replicate 60 false) (List.replicate 50 false))))
        (fun lo _ => lo)).2.server_connected = true
    ∧ (refresh_data (ParkingSystem.mk (catalogLots 0 0 0 0) true)
        (FetchOutcome.response 200 (get_all_lots (serverCatalog
          (List.replicate 35 false) (List.replicate 45 false)
          (List.replicate 60 false) (List.replicate 50 false))))
        (fun lo _ => lo)).2.lots
      = catalogLots (((List.replicate 35 false).count true : Nat) : Int)
          (((List.replicate 45 false).count true : Nat) : Int)
          (((List.replicate 60 false).count true : Nat) : Int)
          (((List.replicate 50 false).count true : Nat) : Int) :=
  C4_sync_failure_and_recovery (fun lo _ => lo)
    (fun lo _hi h => ⟨le_refl lo, h⟩) 0 0 0 0 true
    (List.replicate 35 false) (List.replicate 45 false)
    (List.replicate 60 false) (List.replicate 50 false)
    (List.length_replicate 35 false) (List.length_replicate 45 false)
    (List.length_replicate 60 false) (List.length_replicate 50 false)

/-- C6: error handling of the server endpoints.  A request naming an
unknown area id gets `notFound` (the 404 error body) from every endpoint
and leaves the store and the durable file untouched; a toggle on a known
area with an index outside `[0, capacity)` — every negative index
included — gets `badRequest` (400) and also changes nothing; a read of a
known id always succeeds. -/
theorem C6_unknown_id_and_bad_index (env : ServerEnv) (lot_id : String)
    (idx : Int) (rng : Int → Int → Int) (sample : Nat → Nat → List Nat)
    (pok : Bool) :
    (find_lot env.store lot_id = none →
      toggle_space env lot_id idx pok = (ApiResp.notFound, env)
      ∧ reset_lot env lot_id pok = (ApiResp.notFound, env)
      ∧ fill_lot env lot_id pok = (ApiResp.notFound, env)
      ∧ randomize_lot env lot_id rng sample pok = (ApiResp.notFound, env)
      ∧ get_lot env.store lot_id = none)
    ∧ ∀ lot : ServerLot, find_lot env.store lot_id = some lot →
        ((idx < 0 ∨ (lot.total_spaces : Int) ≤ idx) →
          toggle_space env lot_id idx pok = (ApiResp.badRequest, env))
        ∧ ∃ d : LotDetail, get_lot env.store lot_id = some d := by
  constructor
  · intro h
    refine ⟨?_, ?_, ?_, ?_, ?_⟩ <;>
      simp [toggle_space, reset_lot, fill_lot, randomize_lot, get_lot, h]
  · intro lot h
    constructor
    · intro hbad
      simp [toggle_space, h, hbad]
    · refine ⟨LotDetail.mk (Snapshot.mk lot.lot_id lot.name (lot.total_spaces : Int)
        (get_occupied_count lot : Int) (get_available_count lot) lot.permit_type
        (lot.drive_time : Int) (lot.walk_time : Int)) lot.spaces, ?_⟩
      simp [get_lot, h]

/-- C7: `randomize_lot` on a known area clears the bitmap and marks the
`k` distinct indices `random.sample` returns, where `k` is the count
drawn from the area's configured range; afterwards the area's occupied
count is exactly `k` and its available count is `capacity - k`.  The
hypotheses are exactly `random.sample`'s contract for `0 ≤ k ≤ capacity`:
no repeated index, `k` indices, all below `capacity` — so the exact-count
postcondition holds for ANY such `k`, not only the drawn ones. -/
theorem C7_randomize_exact_count (env : ServerEnv) (lot_id : String)
    (lot : ServerLot) (rng : Int → Int → Int) (sample : Nat → Nat → List Nat)
    (pok : Bool)
    (hfind : find_lot env.store lot_id = some lot)
    (hsn : (sample lot.total_spaces (realistic_count lot_id rng).toNat).Nodup)
    (hsl : (sample lot.total_spaces (realistic_count lot_id rng).toNat).length
        = (realistic_count lot_id rng).toNat)
    (hsb : ∀ i ∈ sample lot.total_spaces (realistic_count lot_id rng).toNat,
        i < lot.total_spaces) :
    ∃ lot₂ : ServerLot,
      find_lot (randomize_lot env lot_id rng sample pok).2.store lot_id = some lot₂
      ∧ lot₂.total_spaces = lot.total_spaces
      ∧ get_occupied_count lot₂ = (realistic_count lot_id rng).toNat
      ∧ get_available_count lot₂
          = (lot.total_spaces : Int) - ((realistic_count lot_id rng).toNat : Int) := by
  have hstore : (randomize_lot env lot_id rng sample pok).2.store
      = update_lot env.store lot_id
          (fun l => { l with spaces := (set_indices (List.replicate l.total_spaces false)
            (sample lot.total_spaces (realistic_count lot_id rng).toNat)) }) := by
    simp only [randomize_lot, hfind]
    cases pok <;> rfl
  have hfind2 : find_lot (randomize_lot env lot_id rng sample pok).2.store lot_id
      = some { lot with spaces := (set_indices (List.replicate lot.total_spaces false)
          (sample lot.total_spaces (realistic_count lot_id rng).toNat)) } := by
    have hfu := find_update_lot env.store lot_id
      (fun l => { l with spaces := (set_indices (List.replicate l.total_spaces false)
        (sample lot.total_spaces (realistic_count lot_id rng).toNat)) })
      (fun l => rfl)
    rw [hstore, hfu, hfind]
    rfl
  refine ⟨_, hfind2, rfl, ?_, ?_⟩
  · show (set_indices (List.replicate lot.total_spaces false)
        (sample lot.total_spaces (realistic_count lot_id rng).toNat)).count true
      = (realistic_count lot_id rng).toNat
    rw [count_set_indices _ _ hsn
      (fun i hi => by simpa using hsb i hi)
      (fun i _ => getD_replicate_false lot.total_spaces i)]
    simp [hsl, count_replicate_false]
  · show (lot.total_spaces : Int)
        - ((set_indices (List.replicate lot.total_spaces false)
            (sample lot.total_spaces (realistic_count lot_id rng).toNat)).count true : Int)
      = (lot.total_spaces : Int) - ((realistic_count lot_id rng).toNat : Int)
    rw [count_set_indices _ _ hsn
      (fun i hi => by simpa using hsb i hi)
      (fun i _ => getD_replicate_false lot.total_spaces i)]
    simp [hsl, count_replicate_false]

/-- C7 witness: randomize lot 17 of the initial catalog with the
lower-bound `randint` oracle (`k = 28`) and the sample oracle that
returns `range k`. -/
theorem C7_witness :
    ∃ lot₂ : ServerLot,
      find_lot (randomize_lot (ServerEnv.mk PARKING_LOTS none) "17"
          (fun lo _ => lo) (fun _ k => List.range k) true).2.store "17" = some lot₂
      ∧ lot₂.total_spaces
          = (ServerLot.mk "17" "Lot 17" 35 "Student" 2 4
              (List.replicate 35 false)).total_spaces
      ∧ get_occupied_count lot₂ = (realistic_count "17" (fun lo _ => lo)).toNat
      ∧ get_available_count lot₂
          = ((ServerLot.mk "17" "Lot 17" 35 "Student" 2 4
                (List.replicate 35 false)).total_spaces : Int)
            - ((realistic_count "17" (fun lo _ => lo)).toNat : Int) :=
  C7_randomize_exact_count (ServerEnv.mk PARKING_LOTS none) "17"
    (ServerLot.mk "17" "Lot 17" 35 "Student" 2 4 (List.replicate 35 false))
    (fun lo _ => lo) (fun _ k => List.range k) true
    (by rfl)
    (List.nodup_range 28)
    (List.length_range 28)
    (fun i hi => by
      have h := List.mem_range.mp hi
      have hk : (realistic_count "17" (fun lo _ => lo)).toNat = 28 := rfl
      rw [hk] at h
      show i < 35
      omega)

/-- C9: `toggle_space` is its own inverse.  For a known area and a valid
index, toggling the same space twice returns the whole store — every
bitmap, hence every occupied and available count — to exactly its
original value, whatever the two persistence outcomes were. -/
theorem C9_toggle_involution (env : ServerEnv) (lot_id : String) (idx : Int)
    (lot : ServerLot) (p q : Bool)
    (hfind : find_lot env.store lot_id = some lot)
    (h0 : 0 ≤ idx) (hcap : idx < (lot.total_spaces : Int)) :
    (toggle_space (toggle_space env lot_id idx p).2 lot_id idx q).2.store
      = env.store := by
  have hguard : ¬(idx < 0 ∨ (lot.total_spaces : Int) ≤ idx) := by omega
  have key : ∀ (e : ServerEnv) (l : ServerLot) (b : Bool),
      find_lot e.store lot_id = some l →
      ¬(idx < 0 ∨ (l.total_spaces : Int) ≤ idx) →
      (toggle_space e lot_id idx b).2.store
        = update_lot e.store lot_id (flip_space idx.toNat) := by
    intro e l b hf hg
    simp only [toggle_space, hf]
    rw [if_neg hg]
    cases b <;> rfl
  have h1 := key env lot p hfind hguard
  have hfind2 : find_lot (toggle_space env lot_id idx p).2.store lot_id
      = some (flip_space idx.toNat lot) := by
    rw [h1, find_update_lot env.store lot_id (flip_space idx.toNat) (fun l => rfl),
      hfind]
    rfl
  have h2 := key (toggle_space env lot_id idx p).2 (flip_space idx.toNat lot) q
    hfind2 hguard
  rw [h2, h1, update_lot_comp env.store lot_id (flip_space idx.toNat)
    (flip_space idx.toNat) (fun l => rfl)]
  exact update_lot_eq_self env.store lot_id _
    (fun l => flip_space_involutive idx.toNat l)

/-- C9 witness: toggling space 0 of catalog lot 17 twice (both persists
succeeding) restores the initial store. -/
theorem C9_witness :
    (toggle_space (toggle_space (ServerEnv.mk PARKING_LOTS none) "17" 0 true).2
        "17" 0 true).2.store = PARKING_LOTS :=
  C9_toggle_involution (ServerEnv.mk PARKING_LOTS none) "17" 0
    (ServerLot.mk "17" "Lot 17" 35 "Student" 2 4 (List.replicate 35 false))
    true true rfl (by norm_num) (by norm_num)

/-- C8 (amended): every mutating handler that passes its guards calls
`save_data` before returning, writing the full snapshot of all areas'
bitmaps (on a successful write the durable file equals the whole new
store); when the durable write fails, the in-memory mutation is NOT
rolled back — the store is identical to the successful-persist store, so
subsequent reads observe the mutated state — but the failure propagates
as the unhandled `save_data` exception (HTTP 500), not as a soft
`PersistenceFailed` result alongside a success body. -/
theorem C8_write_through_no_rollback (env : ServerEnv) (lot_id : String)
    (idx : Int) (rng : Int → Int → Int) (sample : Nat → Nat → List Nat) :
    (∀ lot : ServerLot, find_lot env.store lot_id = some lot →
      ¬(idx < 0 ∨ (lot.total_spaces : Int) ≤ idx) →
      (toggle_space env lot_id idx true).2.disk
          = some ((toggle_space env lot_id idx true).2.store)
        ∧ (toggle_space env lot_id idx false).2.store
            = (toggle_space env lot_id idx true).2.store
        ∧ (toggle_space env lot_id idx false).1 = ApiResp.exn)
    ∧ (find_lot env.store lot_id ≠ none →
        ((reset_lot env lot_id true).2.disk
            = some ((reset_lot env lot_id true).2.store)
          ∧ (reset_lot env lot_id false).2.store
              = (reset_lot env lot_id true).2.store
          ∧ (reset_lot env lot_id false).1 = ApiResp.exn)
        ∧ ((fill_lot env lot_id true).2.disk
            = some ((fill_lot env lot_id true).2.store)
          ∧ (fill_lot env lot_id false).2.store
              = (fill_lot env lot_id true).2.store
          ∧ (fill_lot env lot_id false).1 = ApiResp.exn)
        ∧ ((randomize_lot env lot_id rng sample true).2.disk
            = some ((randomize_lot env lot_id rng sample true).2.store)
          ∧ (randomize_lot env lot_id rng sample false).2.store
              = (randomize_lot env lot_id rng sample true).2.store
          ∧ (randomize_lot env lot_id rng sample false).1 = ApiResp.exn)) := by
  constructor
  · intro lot hf hg
    have h1 : toggle_space env lot_id idx true
        = (ApiResp.ok (ToggleBody.mk lot_id idx
            ((flip_space idx.toNat lot).spaces.getD idx.toNat false)
            (get_occupied_count (flip_space idx.toNat lot))
            (get_available_count (flip_space idx.toNat lot))),
           ServerEnv.mk (update_lot env.store lot_id (flip_space idx.toNat))
             (some (update_lot env.store lot_id (flip_space idx.toNat)))) := by
      simp only [toggle_space, hf]
      rw [if_neg hg]
      simp
    have h2 : toggle_space env lot_id idx false
        = (ApiResp.exn,
           ServerEnv.mk (update_lot env.store lot_id (flip_space idx.toNat))
             env.disk) := by
      simp only [toggle_space, hf]
      rw [if_neg hg]
      simp
    rw [h1, h2]
    exact ⟨rfl, rfl, rfl⟩
  · intro hne
    cases hfl : find_lot env.store lot_id with
    | none => exact absurd hfl hne
    | some l =>
        refine ⟨?_, ?_, ?_⟩ <;> simp only [reset_lot, fill_lot, randomize_lot, hfl] <;>
          exact ⟨rfl, rfl, rfl⟩

/-- C8 counterexample to the claim as stated: on a persist failure the
toggle handler does not report a soft `PersistenceFailed`-style success —
its outcome is the propagated exception, and no success body exists. -/
theorem C8_counterexample :
    (toggle_space (ServerEnv.mk PARKING_LOTS none) "17" 0 false).1 = ApiResp.exn
    ∧ ¬∃ b : ToggleBody,
        (toggle_space (ServerEnv.mk PARKING_LOTS none) "17" 0 false).1
          = ApiResp.ok b := by
  refine ⟨rfl, ?_⟩
  rintro ⟨b, hb⟩
  rw [show (toggle_space (ServerEnv.mk PARKING_LOTS none) "17" 0 false).1
      = ApiResp.exn from rfl] at hb
  exact ApiResp.noConfusion hb

/-- C8 witness: write-through and no-rollback at a concrete input —
toggling space 0 of catalog lot 17. -/
theorem C8_witness :
    (toggle_space (ServerEnv.mk PARKING_LOTS none) "17" 0 true).2.disk
        = some ((toggle_space (ServerEnv.mk PARKING_LOTS none) "17" 0 true).2.store)
      ∧ (toggle_space (ServerEnv.mk PARKING_LOTS none) "17" 0 false).2.store
          = (toggle_space (ServerEnv.mk PARKING_LOTS none) "17" 0 true).2.store
      ∧ (toggle_space (ServerEnv.mk PARKING_LOTS none) "17" 0 false).1
          = ApiResp.exn :=
  (C8_write_through_no_rollback (ServerEnv.mk PARKING_LOTS none) "17" 0
      (fun lo _ => lo) (fun _ k => List.range k)).1
    (ServerLot.mk "17" "Lot 17" 35 "Student" 2 4 (List.replicate 35 false))
    rfl (by norm_num)

/-- C10: every mutating operation changes only occupancy.  The client's
`update_occupancy` keeps id, name, capacity, permit and drive time; each
server mutator keeps the store's length and, position by position, all
identity fields (`frame_store`) — no area is created or destroyed; and
`toggle_space` additionally leaves every area with a different id
entirely unchanged and, within the target area, every space other than
the toggled index unchanged. -/
theorem C10_frame_only_occupancy (env : ServerEnv) (lot_id : String) (idx : Int)
    (rng : Int → Int → Int) (sample : Nat → Nat → List Nat) (pok : Bool)
    (lot : ParkingLot) (n : Int) :
    ((lot.update_occupancy n).lot_id = lot.lot_id
      ∧ (lot.update_occupancy n).name = lot.name
      ∧ (lot.update_occupancy n).total_spaces = lot.total_spaces
      ∧ (lot.update_occupancy n).permit_type = lot.permit_type
      ∧ (lot.update_occupancy n).drive_time = lot.drive_time)
    ∧ frame_store env.store (toggle_space env lot_id idx pok).2.store
    ∧ frame_store env.store (reset_lot env lot_id pok).2.store
    ∧ frame_store env.store (fill_lot env lot_id pok).2.store
    ∧ frame_store env.store (randomize_lot env lot_id rng sample pok).2.store
    ∧ ∀ (k : Nat) (hk : k < env.store.length)
        (hk2 : k < (toggle_space env lot_id idx pok).2.store.length),
        (((env.store.get ⟨k, hk⟩).lot_id ≠ lot_id →
            (toggle_space env lot_id idx pok).2.store.get ⟨k, hk2⟩
              = env.store.get ⟨k, hk⟩)
          ∧ ∀ j : Nat, (j : Int) ≠ idx →
              ((toggle_space env lot_id idx pok).2.store.get ⟨k, hk2⟩).spaces.getD j false
                = (env.store.get ⟨k, hk⟩).spaces.getD j false) := by
  have hfields : ∀ (f : ServerLot → ServerLot),
      (∀ l, (f l).lot_id = l.lot_id ∧ (f l).name = l.name
        ∧ (f l).total_spaces = l.total_spaces ∧ (f l).permit_type = l.permit_type
        ∧ (f l).drive_time = l.drive_time ∧ (f l).walk_time = l.walk_time) →
      ∀ st : Store, frame_store st (update_lot st lot_id f) :=
    fun f hf st => frame_store_update st lot_id f hf
  have htoggle : (toggle_space env lot_id idx pok).2.store = env.store
      ∨ ((toggle_space env lot_id idx pok).2.store
          = update_lot env.store lot_id (flip_space idx.toNat) ∧ 0 ≤ idx) := by
    cases hfl : find_lot env.store lot_id with
    | none => left; simp [toggle_space, hfl]
    | some l =>
        by_cases hg : (idx < 0 ∨ (l.total_spaces : Int) ≤ idx)
        · left
          simp only [toggle_space, hfl]
          rw [if_pos hg]
        · right
          refine ⟨?_, by omega⟩
          simp only [toggle_space, hfl]
          rw [if_neg hg]
          cases pok <;> rfl
  refine ⟨⟨rfl, rfl, rfl, rfl, rfl⟩, ?_, ?_, ?_, ?_, ?_⟩
  · rcases htoggle with h | ⟨h, _⟩
    · rw [h]; exact frame_store_refl env.store
    · rw [h]
      exact hfields (flip_space idx.toNat)
        (fun l => ⟨rfl, rfl, rfl, rfl, rfl, rfl⟩) env.store
  · cases hfl : find_lot env.store lot_id with
    | none =>
        simp only [reset_lot, hfl]
        exact frame_store_refl env.store
    | some l =>
        simp only [reset_lot, hfl]
        cases pok <;>
          exact hfields
            (fun l => { l with spaces := List.replicate l.total_spaces false })
            (fun l => ⟨rfl, rfl, rfl, rfl, rfl, rfl⟩) env.store
  · cases hfl : find_lot env.store lot_id with
    | none =>
        simp only [fill_lot, hfl]
        exact frame_store_refl env.store
    | some l =>
        simp only [fill_lot, hfl]
        cases pok <;>
          exact hfields
            (fun l => { l with spaces := List.replicate l.total_spaces true })
            (fun l => ⟨rfl, rfl, rfl, rfl, rfl, rfl⟩) env.store
  · cases hfl : find_lot env.store lot_id with
    | none =>
        simp only [randomize_lot, hfl]
        exact frame_store_refl env.store
    | some l =>
        simp only [randomize_lot, hfl]
        cases pok <;>
          exact hfields
            (fun l2 => { l2 with spaces := (set_indices
              (List.replicate l2.total_spaces false)
              (sample l.total_spaces (realistic_count lot_id rng).toNat)) })
            (fun l2 => ⟨rfl, rfl, rfl, rfl, rfl, rfl⟩) env.store
  · rcases htoggle with h | ⟨h, hpos⟩
    · rw [h]
      intro k hk hk2
      exact ⟨fun _ => rfl, fun j _ => rfl⟩
    · rw [h]
      intro k hk hk2
      have hg2 : (update_lot env.store lot_id (flip_space idx.toNat)).get ⟨k, hk2⟩
          = if (((env.store.get ⟨k, hk⟩).lot_id == lot_id) = true)
            then flip_space idx.toNat (env.store.get ⟨k, hk⟩)
            else env.store.get ⟨k, hk⟩ := by
        simp [update_lot, List.get_eq_getElem, List.getElem_map]
      rw [hg2]
      by_cases hm : ((env.store.get ⟨k, hk⟩).lot_id == lot_id) = true
      · rw [if_pos hm]
        constructor
        · intro hne
          exact absurd (by simpa using hm) hne
        · intro j hj
          simp only [flip_space]
          exact getD_set_ne _ idx.toNat j _ (by omega)
      · rw [if_neg hm]
        exact ⟨fun _ => rfl, fun j _ => rfl⟩

end ELCParking
